import Mathlib

/-!
Shallow embedding of `clone.go` from `whosonfirst/go-whosonfirst-clone`.

Modelling choices:
* The external world (HTTP transport, local filesystem, body reads, hash
  computation) is an oracle (`Env`).  HTTP request outcomes are indexed by the
  number of requests issued so far, so a retried fetch may have a different
  outcome than the initial attempt, exactly as in the real program.
* The concurrent work pool is modelled by sequential execution of the work
  units in submission order.  The claims under study are about counter values
  after a phase barrier (`wg.Wait()`), which are sums of per-unit atomic
  increments and therefore independent of interleaving; different completion
  orders correspond to different oracles.
* Go `int64` counters are modelled by `Int` (no claim involves overflow) and
  the `float64` retry-percentage arithmetic by `ℚ`.
* `os.Stat` is modelled by the boolean oracle `Env.localExists` (true exactly
  when `os.IsNotExist(err)` is false), constant over the job: the job itself
  writes a path only after deciding to fetch it and never stats it again.
* The detached write goroutine launched by `Process` (which on failure
  decrements `Success` and increments `Error` without changing `Process`'s own
  return value) is folded into `process` at the point the unit completes.
* `WOFClone.requests` is a ghost log of every HTTP request issued through
  `Fetch`, used only to state observational properties ("no GET is issued").
* Manifest reading is modelled as an already-parsed list of rows; the
  csv-reader error path aborts before any entry is processed and is outside
  the claims under study.  The periodic `Status` reporter is observational
  only and is not modelled.
-/

/-- An HTTP response as the clone engine sees it: numeric status code, status
text (`rsp.Status`), and the `Etag` header value. -/
structure HttpResp where
  statusCode : Nat
  status : String
  etag : String
deriving DecidableEq

/-- Oracle for the external collaborators of `clone.go`.
`clientDo t method url` is the outcome of the `t`-th HTTP request of the job
(`http.Client.Do`); `readAll url` the outcome of reading a GET body;
`writeFile p` whether `ioutil.WriteFile` succeeds for local path `p`;
`localExists p` whether `os.Stat(p)` reports the path as existing
(`!os.IsNotExist(err)`); `localHash p` the outcome of `utils.HashFile`. -/
structure Env where
  clientDo : Nat → String → String → Except String HttpResp
  readAll : String → Except String String
  writeFile : String → Bool
  localExists : String → Bool
  localHash : String → Except String String

/-- One manifest row: the `path` column (rows without it are skipped) and the
optional `file_hash` column. -/
structure Row where
  path : Option String
  file_hash : Option String
deriving DecidableEq

/-- The `WOFClone` struct: counters, configuration and the LIFO retry queue
(`retries`, pushed at the head, popped from the head), plus the ghost
request log `requests`. -/
structure WOFClone where
  Source : String
  Dest : String
  Success : Int
  Error : Int
  Skipped : Int
  Scheduled : Int
  Completed : Int
  MaxRetries : ℚ
  retries : List String
  requests : List (String × String)
deriving DecidableEq

/-- `path.Join(dest, rel)` (cleaning behaviour is irrelevant to the claims). -/
def pathJoin (d p : String) : String := d ++ "/" ++ p

/-- `NewWOFClone`: zeroed counters, `MaxRetries = 25.0`, empty retry queue. -/
def newWOFClone (source dest : String) : WOFClone :=
  { Source := source, Dest := dest, Success := 0, Error := 0, Skipped := 0,
    Scheduled := 0, Completed := 0, MaxRetries := 25, retries := [],
    requests := [] }

/-- `(c *WOFClone) Fetch(method, url)`: issue the request (logged in the ghost
log); a transport error or a status other than 200 is returned as an error
(`errors.New(rsp.Status)`). -/
def fetch (env : Env) (method url : String) (c : WOFClone) :
    WOFClone × Except String HttpResp :=
  let t := c.requests.length
  let c := { c with requests := c.requests ++ [(method, url)] }
  match env.clientDo t method url with
  | Except.error e => (c, Except.error e)
  | Except.ok rsp =>
      if rsp.statusCode != 200 then (c, Except.error rsp.status)
      else (c, Except.ok rsp)

/-- `strings.Replace(etag, "\"", "", -1)`: drop every double-quote. -/
def stripQuotes (s : String) : String :=
  String.mk (s.toList.filter (fun ch => ch ≠ '"'))

/-- `(c *WOFClone) HasHashChanged(local_hash, remote)`: HEAD probe; on probe
failure report `(true, err)`; otherwise compare `local_hash` with the
unquoted `Etag` header. -/
def hasHashChanged (env : Env) (local_hash remote : String) (c : WOFClone) :
    WOFClone × (Bool × Option String) :=
  match fetch env "HEAD" remote c with
  | (c, Except.error e) => (c, (true, some e))
  | (c, Except.ok rsp) =>
      let remote_hash := stripQuotes rsp.etag
      (c, (local_hash != remote_hash, none))

/-- `(c *WOFClone) HasChanged(local, remote)`: hash the local file (on hash
failure report `(true, err)`) and defer to `HasHashChanged`. -/
def hasChanged (env : Env) (localPath remote : String) (c : WOFClone) :
    WOFClone × (Bool × Option String) :=
  match env.localHash localPath with
  | Except.error e => (c, (true, some e))
  | Except.ok h => hasHashChanged env h remote c

/-- `(c *WOFClone) Process(remote, local)`: GET the content, read the body,
then hand the write to a detached goroutine and return `nil`.  The detached
write's counter adjustments on failure (`Success -= 1`, `Error += 1`) are
folded in here; its failure is *not* part of the returned error. -/
def process (env : Env) (remote localPath : String) (c : WOFClone) :
    WOFClone × Option String :=
  match fetch env "GET" remote c with
  | (c, Except.error e) => (c, some e)
  | (c, Except.ok _) =>
      match env.readAll remote with
      | Except.error e => (c, some e)
      | Except.ok _ =>
          if env.writeFile localPath then (c, none)
          else ({ c with Success := c.Success - 1, Error := c.Error + 1 }, none)

/-- `(c *WOFClone) ClonePath(rel_path, ensure_changes)`: when the local copy
exists and `ensure_changes` is set, skip (counting `Skipped`) if the content
is unchanged; otherwise fetch and store via `Process`. -/
def clonePath (env : Env) (rel_path : String) (ensure_changes : Bool)
    (c : WOFClone) : WOFClone × Option String :=
  let remote := c.Source ++ rel_path
  let localPath := pathJoin c.Dest rel_path
  if env.localExists localPath && ensure_changes then
    match hasChanged env localPath remote c with
    | (c, (change, _)) =>
        if !change then ({ c with Skipped := c.Skipped + 1 }, none)
        else process env remote localPath c
  else
    process env remote localPath c

/-- The initial-pass unit of work submitted to the pool (lines 176-193 of
`clone.go`): run `ClonePath`; on error bump `Error` and push the path onto
the retry queue, on success bump `Success`; always bump `Completed`. -/
def workUnit (env : Env) (rel_path : String) (ensure_changes : Bool)
    (c : WOFClone) : WOFClone :=
  match clonePath env rel_path ensure_changes c with
  | (c, some _) =>
      { c with Error := c.Error + 1, retries := rel_path :: c.retries,
               Completed := c.Completed + 1 }
  | (c, none) =>
      { c with Success := c.Success + 1, Completed := c.Completed + 1 }

/-- The fingerprint comparison of `CloneMetaFile` (lines 137-146): use the
manifest-supplied `file_hash` when present, else hash the local copy. -/
def rowHashCheck (env : Env) (row_hash : Option String)
    (localPath remote : String) (c : WOFClone) :
    WOFClone × (Bool × Option String) :=
  match row_hash with
  | some fh => hasHashChanged env fh remote c
  | none => hasChanged env localPath remote c

/-- The body of `CloneMetaFile`'s row loop for one row: rows without `path`
are skipped; when the local copy exists the policy (force-updates /
skip-existing / fingerprint comparison) either counts the row as skipped
(`Scheduled`, `Completed`, `Skipped` each once) or dispatches a work unit
with `ensure_changes = false`; when it does not exist, a work unit is
dispatched with `ensure_changes = true`. -/
def rowStep (env : Env) (skip_existing force_updates : Bool) (c : WOFClone)
    (row : Row) : WOFClone :=
  match row.path with
  | none => c
  | some rel_path =>
    let remote := c.Source ++ rel_path
    let localPath := pathJoin c.Dest rel_path
    if env.localExists localPath then
      if force_updates then
        workUnit env rel_path false { c with Scheduled := c.Scheduled + 1 }
      else if skip_existing then
        { c with Scheduled := c.Scheduled + 1, Completed := c.Completed + 1,
                 Skipped := c.Skipped + 1 }
      else
        match rowHashCheck env row.file_hash localPath remote c with
        | (c, (has_changes, _)) =>
          if !has_changes then
            { c with Scheduled := c.Scheduled + 1, Completed := c.Completed + 1,
                     Skipped := c.Skipped + 1 }
          else
            workUnit env rel_path false { c with Scheduled := c.Scheduled + 1 }
    else
      workUnit env rel_path true { c with Scheduled := c.Scheduled + 1 }

/-- The initial pass of `CloneMetaFile`: process every manifest row, up to the
`wg.Wait()` barrier. -/
def runRows (env : Env) (skip_existing force_updates : Bool) (rows : List Row)
    (c : WOFClone) : WOFClone :=
  rows.foldl (rowStep env skip_existing force_updates) c

/-- The retry-pass unit of work (lines 248-267 of `clone.go`): `ClonePath` with
`ensure_changes` forced `true`; `Error` is bumped on failure and decremented
on success; `Completed` always bumped.  Retried paths are not re-queued. -/
def retryUnit (env : Env) (rel_path : String) (c : WOFClone) : WOFClone :=
  match clonePath env rel_path true c with
  | (c, some _) => { c with Error := c.Error + 1, Completed := c.Completed + 1 }
  | (c, none) => { c with Error := c.Error - 1, Completed := c.Completed + 1 }

/-- The drain loop of `ProcessRetries`: pop the LIFO queue until empty; each
pop bumps `Scheduled` and submits one retry unit of work. -/
def drainRetries (env : Env) : List String → WOFClone → WOFClone
  | [], c => c
  | rel_path :: rest, c =>
      drainRetries env rest
        (retryUnit env rel_path
          { c with retries := rest, Scheduled := c.Scheduled + 1 })

/-- `(c *WOFClone) ProcessRetries()`: with a non-empty queue, compute
`pct = (to_retry / Scheduled) * 100` (float arithmetic modelled by `ℚ`);
abort with `false` when `pct > MaxRetries`, else drain the queue and return
`true`; with an empty queue do nothing and return `true`. -/
def processRetries (env : Env) (c : WOFClone) : WOFClone × Bool :=
  let to_retry := c.retries.length
  if 0 < to_retry then
    let pct : ℚ := ((to_retry : ℚ) / (c.Scheduled : ℚ)) * 100
    if c.MaxRetries < pct then (c, false)
    else (drainRetries env c.retries c, true)
  else (c, true)

/-- `(c *WOFClone) CloneMetaFile(file, skip_existing, force_updates)` after the
manifest has been parsed into `rows`: run the initial pass, then
`ProcessRetries`; a `false` gate result becomes the job-level error
`"One of file failed to be cloned"`. -/
def cloneMetaFile (env : Env) (skip_existing force_updates : Bool)
    (rows : List Row) (c : WOFClone) : WOFClone × Option String :=
  let c := runRows env skip_existing force_updates rows c
  match processRetries env c with
  | (c, true) => (c, none)
  | (c, false) => (c, some "One of file failed to be cloned")

/-! ### Concrete oracles and manifests used to instantiate the theorems -/

/-- Oracle of a healthy world: every request succeeds with status 200 and an
empty `Etag`, bodies read fine, writes succeed, no local copy exists. -/
def envAllOk : Env :=
  { clientDo := fun _ _ _ => Except.ok { statusCode := 200, status := "200 OK", etag := "" },
    readAll := fun _ => Except.ok "",
    writeFile := fun _ => true,
    localExists := fun _ => false,
    localHash := fun _ => Except.error "no such file" }

/-- Oracle of a dead origin: every request fails at the transport level. -/
def envDown : Env :=
  { clientDo := fun _ _ _ => Except.error "connection refused",
    readAll := fun _ => Except.error "connection refused",
    writeFile := fun _ => false,
    localExists := fun _ => false,
    localHash := fun _ => Except.error "no such file" }

/-- Oracle of an up-to-date mirror: the local copy exists, hashes to `h`, and
the remote validator is the quoted `Etag` `"h"`. -/
def envUnchanged : Env :=
  { clientDo := fun _ _ _ =>
      Except.ok { statusCode := 200, status := "200 OK", etag := "\"h\"" },
    readAll := fun _ => Except.ok "",
    writeFile := fun _ => true,
    localExists := fun _ => true,
    localHash := fun _ => Except.ok "h" }

/-- Oracle for the spec §8 retry scenario: the first two HTTP requests of the
job (the initial GETs of the first two rows) fail, every later request
succeeds; the destination is empty and all writes succeed. -/
def envTwoFail : Env :=
  { clientDo := fun t _ _ =>
      if t < 2 then Except.error "connection reset"
      else Except.ok { statusCode := 200, status := "200 OK", etag := "" },
    readAll := fun _ => Except.ok "",
    writeFile := fun _ => true,
    localExists := fun _ => false,
    localHash := fun _ => Except.error "no such file" }

/-- Oracle where the fetch succeeds but the durable local write fails. -/
def envStoreFail : Env :=
  { clientDo := fun _ _ _ => Except.ok { statusCode := 200, status := "200 OK", etag := "" },
    readAll := fun _ => Except.ok "",
    writeFile := fun _ => false,
    localExists := fun _ => false,
    localHash := fun _ => Except.error "no such file" }

/-- A one-row manifest. -/
def rowsOne : List Row := [{ path := some "p", file_hash := none }]

/-- A ten-row manifest (the §8 scenarios), no `file_hash` column. -/
def rowsTen : List Row :=
  [{ path := some "p0", file_hash := none }, { path := some "p1", file_hash := none },
   { path := some "p2", file_hash := none }, { path := some "p3", file_hash := none },
   { path := some "p4", file_hash := none }, { path := some "p5", file_hash := none },
   { path := some "p6", file_hash := none }, { path := some "p7", file_hash := none },
   { path := some "p8", file_hash := none }, { path := some "p9", file_hash := none }]

/-- A mid-job state with one queued retry out of ten scheduled entries. -/
def cRetryOne : WOFClone :=
  { Source := "s/", Dest := "d", Success := 9, Error := 1, Skipped := 0,
    Scheduled := 10, Completed := 10, MaxRetries := 25, retries := ["p"],
    requests := [] }

/-! ### Basic state-shape lemmas -/

lemma fetch_fst (env : Env) (m u : String) (c : WOFClone) :
    (fetch env m u c).1 = { c with requests := c.requests ++ [(m, u)] } := by
  rcases h : env.clientDo c.requests.length m u with e | rsp
  · simp [fetch, h]
  · simp only [fetch, h]
    split <;> rfl

lemma hasHashChanged_fst (env : Env) (h r : String) (c : WOFClone) :
    (hasHashChanged env h r c).1 =
      { c with requests := c.requests ++ [("HEAD", r)] } := by
  have hf := fetch_fst env "HEAD" r c
  unfold hasHashChanged
  rcases he : fetch env "HEAD" r c with ⟨c1, er⟩
  rw [he] at hf
  cases er <;> simpa using hf

lemma hasChanged_fst (env : Env) (l r : String) (c : WOFClone) :
    (hasChanged env l r c).1 = c ∨
    (hasChanged env l r c).1 = { c with requests := c.requests ++ [("HEAD", r)] } := by
  unfold hasChanged
  rcases env.localHash l with e | h
  · exact Or.inl rfl
  · exact Or.inr (hasHashChanged_fst env h r c)

lemma rowHashCheck_fst (env : Env) (rh : Option String) (l r : String) (c : WOFClone) :
    (rowHashCheck env rh l r c).1 = c ∨
    (rowHashCheck env rh l r c).1 = { c with requests := c.requests ++ [("HEAD", r)] } := by
  unfold rowHashCheck
  rcases rh with _ | fh
  · exact hasChanged_fst env l r c
  · exact Or.inr (hasHashChanged_fst env fh r c)

lemma process_fields (env : Env) (r l : String) (c : WOFClone) :
    (process env r l c).1.Success + (process env r l c).1.Error = c.Success + c.Error ∧
    (process env r l c).1.Skipped = c.Skipped ∧
    (process env r l c).1.Completed = c.Completed ∧
    (process env r l c).1.Scheduled = c.Scheduled ∧
    (process env r l c).1.retries = c.retries ∧
    (process env r l c).1.Source = c.Source ∧
    (process env r l c).1.Dest = c.Dest ∧
    (process env r l c).1.MaxRetries = c.MaxRetries := by
  have hf := fetch_fst env "GET" r c
  unfold process
  rcases he : fetch env "GET" r c with ⟨c1, er⟩
  rw [he] at hf
  simp only at hf
  subst hf
  cases er with
  | error e => exact ⟨rfl, rfl, rfl, rfl, rfl, rfl, rfl, rfl⟩
  | ok rsp =>
      dsimp only
      rcases env.readAll r with e2 | s2
      · exact ⟨rfl, rfl, rfl, rfl, rfl, rfl, rfl, rfl⟩
      · dsimp only
        split
        · exact ⟨rfl, rfl, rfl, rfl, rfl, rfl, rfl, rfl⟩
        · exact ⟨by dsimp only; omega, rfl, rfl, rfl, rfl, rfl, rfl, rfl⟩

lemma clonePath_no_skip (env : Env) (p : String) (ec : Bool) (c : WOFClone)
    (h : (env.localExists (pathJoin c.Dest p) && ec) = false) :
    clonePath env p ec c = process env (c.Source ++ p) (pathJoin c.Dest p) c := by
  unfold clonePath
  simp [h]

lemma clonePath_fields (env : Env) (p : String) (ec : Bool) (c : WOFClone) :
    (clonePath env p ec c).1.Scheduled = c.Scheduled ∧
    (clonePath env p ec c).1.Completed = c.Completed ∧
    (clonePath env p ec c).1.retries = c.retries ∧
    (clonePath env p ec c).1.Source = c.Source ∧
    (clonePath env p ec c).1.Dest = c.Dest ∧
    (clonePath env p ec c).1.MaxRetries = c.MaxRetries := by
  unfold clonePath
  dsimp only
  split
  · rcases hh : hasChanged env (pathJoin c.Dest p) (c.Source ++ p) c with ⟨c1, b, e⟩
    have hf := hasChanged_fst env (pathJoin c.Dest p) (c.Source ++ p) c
    rw [hh] at hf
    simp only at hf
    dsimp only
    split
    · rcases hf with h1 | h1 <;> subst h1 <;> exact ⟨rfl, rfl, rfl, rfl, rfl, rfl⟩
    · have hp := process_fields env (c.Source ++ p) (pathJoin c.Dest p) c1
      obtain ⟨_, _, hC, hSch, hret, hSrc, hDst, hMax⟩ := hp
      rcases hf with h1 | h1 <;> subst h1 <;>
        exact ⟨hSch, hC, hret, hSrc, hDst, hMax⟩
  · have hp := process_fields env (c.Source ++ p) (pathJoin c.Dest p) c
    obtain ⟨_, _, hC, hSch, hret, hSrc, hDst, hMax⟩ := hp
    exact ⟨hSch, hC, hret, hSrc, hDst, hMax⟩

lemma workUnit_sum (env : Env) (p : String) (ec : Bool) (c : WOFClone)
    (h : (env.localExists (pathJoin c.Dest p) && ec) = false)
    (hc : c.Completed = c.Success + c.Error + c.Skipped) :
    (workUnit env p ec c).Completed =
      (workUnit env p ec c).Success + (workUnit env p ec c).Error +
        (workUnit env p ec c).Skipped := by
  unfold workUnit
  rw [clonePath_no_skip env p ec c h]
  have hp := process_fields env (c.Source ++ p) (pathJoin c.Dest p) c
  rcases he : process env (c.Source ++ p) (pathJoin c.Dest p) c with ⟨c1, er⟩
  rw [he] at hp
  simp only at hp
  obtain ⟨hsum, hSk, hC, _, _, _, _, _⟩ := hp
  cases er <;> dsimp only <;> omega

lemma rowStep_sum (env : Env) (se fu : Bool) (c : WOFClone) (row : Row)
    (hc : c.Completed = c.Success + c.Error + c.Skipped) :
    (rowStep env se fu c row).Completed =
      (rowStep env se fu c row).Success + (rowStep env se fu c row).Error +
        (rowStep env se fu c row).Skipped := by
  unfold rowStep
  rcases row.path with _ | rel
  · exact hc
  · dsimp only
    by_cases hex : env.localExists (pathJoin c.Dest rel) = true
    · rw [if_pos hex]
      by_cases hfu : fu = true
      · rw [if_pos hfu]
        exact workUnit_sum env rel false _ (by simp) hc
      · rw [if_neg hfu]
        by_cases hse : se = true
        · rw [if_pos hse]
          dsimp only
          omega
        · rw [if_neg hse]
          have hf := rowHashCheck_fst env row.file_hash (pathJoin c.Dest rel)
            (c.Source ++ rel) c
          rcases hh : rowHashCheck env row.file_hash (pathJoin c.Dest rel)
            (c.Source ++ rel) c with ⟨c1, b, e⟩
          rw [hh] at hf
          simp only at hf
          have hC : c1.Completed = c.Completed := by
            rcases hf with h1 | h1 <;> subst h1 <;> rfl
          have hS : c1.Success = c.Success := by
            rcases hf with h1 | h1 <;> subst h1 <;> rfl
          have hE : c1.Error = c.Error := by
            rcases hf with h1 | h1 <;> subst h1 <;> rfl
          have hSk : c1.Skipped = c.Skipped := by
            rcases hf with h1 | h1 <;> subst h1 <;> rfl
          dsimp only
          split
          · dsimp only
            omega
          · exact workUnit_sum env rel false _ (by simp) (by dsimp only; omega)
    · rw [if_neg hex]
      exact workUnit_sum env rel true _
        (by simp [Bool.not_eq_true] at hex; simp [hex]) hc

lemma runRows_sum (env : Env) (se fu : Bool) :
    ∀ (rows : List Row) (c : WOFClone),
      c.Completed = c.Success + c.Error + c.Skipped →
      (runRows env se fu rows c).Completed =
        (runRows env se fu rows c).Success + (runRows env se fu rows c).Error +
          (runRows env se fu rows c).Skipped
  | [], _, hc => hc
  | row :: rest, c, hc => by
      have h1 := rowStep_sum env se fu c row hc
      simpa [runRows, List.foldl] using
        runRows_sum env se fu rest (rowStep env se fu c row) h1

/-- **C1.** For every clone job (any manifest, any oracle for the per-entry
outcomes, any toggle settings), once the initial pass has reached its
`wg.Wait()` barrier the counters satisfy
`Completed = Success + Error + Skipped`. -/
theorem C1_initial_pass_counter_sum (env : Env) (se fu : Bool) (rows : List Row)
    (source dest : String) :
    (runRows env se fu rows (newWOFClone source dest)).Completed =
      (runRows env se fu rows (newWOFClone source dest)).Success +
        (runRows env se fu rows (newWOFClone source dest)).Error +
        (runRows env se fu rows (newWOFClone source dest)).Skipped :=
  runRows_sum env se fu rows (newWOFClone source dest) rfl

lemma retryUnit_fields (env : Env) (p : String) (c : WOFClone) :
    (retryUnit env p c).retries = c.retries ∧
    (retryUnit env p c).Scheduled = c.Scheduled ∧
    (retryUnit env p c).Completed = c.Completed + 1 := by
  unfold retryUnit
  have hp := clonePath_fields env p true c
  rcases he : clonePath env p true c with ⟨c1, er⟩
  rw [he] at hp
  simp only at hp
  obtain ⟨hSch, hC, hret, _, _, _⟩ := hp
  cases er <;> dsimp only <;> exact ⟨hret, hSch, by omega⟩

lemma drainRetries_spec (env : Env) :
    ∀ (q : List String) (c : WOFClone),
      (drainRetries env q c).Scheduled = c.Scheduled + q.length ∧
      (drainRetries env q c).Completed = c.Completed + q.length ∧
      (q ≠ [] → (drainRetries env q c).retries = [])
  | [], c => by simp [drainRetries]
  | p :: rest, c => by
      obtain ⟨hret, hSch, hC⟩ :=
        retryUnit_fields env p { c with retries := rest, Scheduled := c.Scheduled + 1 }
      obtain ⟨ih1, ih2, ih3⟩ := drainRetries_spec env rest
        (retryUnit env p { c with retries := rest, Scheduled := c.Scheduled + 1 })
      refine ⟨?_, ?_, ?_⟩
      · rw [drainRetries, ih1, hSch]
        dsimp only
        simp only [List.length_cons]
        push_cast
        omega
      · rw [drainRetries, ih2, hC]
        dsimp only
        simp only [List.length_cons]
        push_cast
        omega
      · intro _
        rw [drainRetries]
        rcases rest with _ | ⟨a, as⟩
        · simpa [drainRetries] using hret
        · exact ih3 (by simp)

lemma workUnit_sched_retries (env : Env) (p : String) (ec : Bool) (c : WOFClone) :
    (workUnit env p ec c).Scheduled = c.Scheduled ∧
    ((workUnit env p ec c).retries = c.retries ∨
      (workUnit env p ec c).retries = p :: c.retries) := by
  unfold workUnit
  have hp := clonePath_fields env p ec c
  rcases he : clonePath env p ec c with ⟨c1, er⟩
  rw [he] at hp
  simp only at hp
  obtain ⟨hSch, _, hret, _, _, _⟩ := hp
  cases er with
  | none => exact ⟨hSch, Or.inl hret⟩
  | some e => exact ⟨hSch, Or.inr (by dsimp only; rw [hret])⟩

lemma rowStep_retries_le (env : Env) (se fu : Bool) (c : WOFClone) (row : Row)
    (h : (c.retries.length : Int) ≤ c.Scheduled) :
    ((rowStep env se fu c row).retries.length : Int) ≤
      (rowStep env se fu c row).Scheduled := by
  unfold rowStep
  rcases row.path with _ | rel
  · exact h
  · dsimp only
    by_cases hex : env.localExists (pathJoin c.Dest rel) = true
    · rw [if_pos hex]
      by_cases hfu : fu = true
      · rw [if_pos hfu]
        obtain ⟨hSch, hret⟩ :=
          workUnit_sched_retries env rel false { c with Scheduled := c.Scheduled + 1 }
        rw [hSch]
        rcases hret with h1 | h1 <;> rw [h1] <;> dsimp only <;>
          · try simp only [List.length_cons]
            push_cast
            omega
      · rw [if_neg hfu]
        by_cases hse : se = true
        · rw [if_pos hse]
          dsimp only
          omega
        · rw [if_neg hse]
          have hf := rowHashCheck_fst env row.file_hash (pathJoin c.Dest rel)
            (c.Source ++ rel) c
          rcases hh : rowHashCheck env row.file_hash (pathJoin c.Dest rel)
            (c.Source ++ rel) c with ⟨c1, b, e⟩
          rw [hh] at hf
          simp only at hf
          have hlen : c1.retries.length = c.retries.length := by
            rcases hf with h1 | h1 <;> subst h1 <;> rfl
          have hSch1 : c1.Scheduled = c.Scheduled := by
            rcases hf with h1 | h1 <;> subst h1 <;> rfl
          dsimp only
          split
          · dsimp only
            omega
          · obtain ⟨hSch, hret⟩ :=
              workUnit_sched_retries env rel false { c1 with Scheduled := c1.Scheduled + 1 }
            rw [hSch]
            rcases hret with h1 | h1 <;> rw [h1] <;> dsimp only <;>
              · try simp only [List.length_cons]
                push_cast
                omega
    · rw [if_neg hex]
      obtain ⟨hSch, hret⟩ :=
        workUnit_sched_retries env rel true { c with Scheduled := c.Scheduled + 1 }
      rw [hSch]
      rcases hret with h1 | h1 <;> rw [h1] <;> dsimp only <;>
        · try simp only [List.length_cons]
          push_cast
          omega

lemma runRows_retries_le (env : Env) (se fu : Bool) :
    ∀ (rows : List Row) (c : WOFClone),
      (c.retries.length : Int) ≤ c.Scheduled →
      ((runRows env se fu rows c).retries.length : Int) ≤
        (runRows env se fu rows c).Scheduled
  | [], _, h => h
  | row :: rest, c, h => by
      simpa [runRows, List.foldl] using
        runRows_retries_le env se fu rest (rowStep env se fu c row)
          (rowStep_retries_le env se fu c row h)

lemma hasHashChanged_unchanged (env : Env) (fh remote : String) (c : WOFClone)
    (rsp : HttpResp)
    (hdo : env.clientDo c.requests.length "HEAD" remote = Except.ok rsp)
    (hst : rsp.statusCode = 200)
    (heq : fh = stripQuotes rsp.etag) :
    hasHashChanged env fh remote c =
      ({ c with requests := c.requests ++ [("HEAD", remote)] }, (false, none)) := by
  simp [hasHashChanged, fetch, hdo, hst, heq]

lemma hasChanged_unchanged (env : Env) (localPath remote : String) (c : WOFClone)
    (rsp : HttpResp)
    (hdo : env.clientDo c.requests.length "HEAD" remote = Except.ok rsp)
    (hst : rsp.statusCode = 200)
    (hh : env.localHash localPath = Except.ok (stripQuotes rsp.etag)) :
    hasChanged env localPath remote c =
      ({ c with requests := c.requests ++ [("HEAD", remote)] }, (false, none)) := by
  unfold hasChanged
  rw [hh]
  exact hasHashChanged_unchanged env _ remote c rsp hdo hst rfl

lemma clonePath_unchanged (env : Env) (rel : String) (c : WOFClone) (rsp : HttpResp)
    (hex : env.localExists (pathJoin c.Dest rel) = true)
    (hdo : env.clientDo c.requests.length "HEAD" (c.Source ++ rel) = Except.ok rsp)
    (hst : rsp.statusCode = 200)
    (hh : env.localHash (pathJoin c.Dest rel) = Except.ok (stripQuotes rsp.etag)) :
    clonePath env rel true c =
      ({ c with Skipped := c.Skipped + 1,
                requests := c.requests ++ [("HEAD", c.Source ++ rel)] }, none) := by
  unfold clonePath
  dsimp only
  rw [if_pos (by simp [hex])]
  rw [hasChanged_unchanged env _ _ c rsp hdo hst hh]
  rfl

/-! ### The claims -/

/-- **C2.** If the initial pass ends with a non-empty retry queue and
`(queue length / Scheduled) * 100` exceeds the configured ceiling
(`MaxRetries`, default 25), the job returns the budget-exceeded error, the
final state is exactly the barrier state (so no retry unit of work is ever
submitted), and the retry queue is left non-empty. -/
theorem C2_budget_exceeded_aborts (env : Env) (se fu : Bool) (rows : List Row)
    (source dest : String)
    (hne : (runRows env se fu rows (newWOFClone source dest)).retries ≠ [])
    (hpct : (runRows env se fu rows (newWOFClone source dest)).MaxRetries <
      (((runRows env se fu rows (newWOFClone source dest)).retries.length : ℚ) /
          ((runRows env se fu rows (newWOFClone source dest)).Scheduled : ℚ)) * 100) :
    cloneMetaFile env se fu rows (newWOFClone source dest) =
      (runRows env se fu rows (newWOFClone source dest),
        some "One of file failed to be cloned") ∧
    (cloneMetaFile env se fu rows (newWOFClone source dest)).1.retries ≠ [] := by
  have hpr : processRetries env (runRows env se fu rows (newWOFClone source dest)) =
      (runRows env se fu rows (newWOFClone source dest), false) := by
    unfold processRetries
    rw [if_pos (List.length_pos.mpr hne)]
    dsimp only
    rw [if_pos hpct]
  have hmain : cloneMetaFile env se fu rows (newWOFClone source dest) =
      (runRows env se fu rows (newWOFClone source dest),
        some "One of file failed to be cloned") := by
    unfold cloneMetaFile
    dsimp only
    rw [hpr]
  exact ⟨hmain, by rw [hmain]; exact hne⟩

/-- Witness for C2: a one-row manifest against a dead origin; the single
entry fails, the failure ratio is 100% > 25%, the job aborts. -/
theorem C2_budget_exceeded_aborts_witness :
    (runRows envDown false false rowsOne (newWOFClone "s/" "d")).retries ≠ [] ∧
    (runRows envDown false false rowsOne (newWOFClone "s/" "d")).MaxRetries <
      (((runRows envDown false false rowsOne (newWOFClone "s/" "d")).retries.length : ℚ) /
          ((runRows envDown false false rowsOne (newWOFClone "s/" "d")).Scheduled : ℚ)) * 100 ∧
    cloneMetaFile envDown false false rowsOne (newWOFClone "s/" "d") =
      (runRows envDown false false rowsOne (newWOFClone "s/" "d"),
        some "One of file failed to be cloned") := by
  have h1 : (runRows envDown false false rowsOne (newWOFClone "s/" "d")).retries.length = 1 := by
    decide
  have h2 : (runRows envDown false false rowsOne (newWOFClone "s/" "d")).Scheduled = 1 := by
    decide
  have h3 : (runRows envDown false false rowsOne (newWOFClone "s/" "d")).MaxRetries = 25 := by
    decide
  have hpct : (runRows envDown false false rowsOne (newWOFClone "s/" "d")).MaxRetries <
      (((runRows envDown false false rowsOne (newWOFClone "s/" "d")).retries.length : ℚ) /
          ((runRows envDown false false rowsOne (newWOFClone "s/" "d")).Scheduled : ℚ)) * 100 := by
    rw [h1, h2, h3]
    norm_num
  exact ⟨by decide, hpct,
    (C2_budget_exceeded_aborts envDown false false rowsOne "s/" "d" (by decide) hpct).1⟩

/-- The §8 scenario fully evaluated: ten rows against an empty destination,
the initial fetches of `p0` and `p1` fail, both retries succeed. -/
lemma c3_final_state :
    cloneMetaFile envTwoFail false false rowsTen (newWOFClone "s/" "d") =
      ({ Source := "s/", Dest := "d", Success := 8, Error := 0, Skipped := 0,
         Scheduled := 12, Completed := 12, MaxRetries := 25, retries := [],
         requests := [("GET", "s/p0"), ("GET", "s/p1"), ("GET", "s/p2"),
           ("GET", "s/p3"), ("GET", "s/p4"), ("GET", "s/p5"), ("GET", "s/p6"),
           ("GET", "s/p7"), ("GET", "s/p8"), ("GET", "s/p9"), ("GET", "s/p1"),
           ("GET", "s/p0")] }, none) := by
  have hne : (runRows envTwoFail false false rowsTen (newWOFClone "s/" "d")).retries ≠ [] := by
    decide
  have h1 : (runRows envTwoFail false false rowsTen (newWOFClone "s/" "d")).retries.length = 2 := by
    decide
  have h2 : (runRows envTwoFail false false rowsTen (newWOFClone "s/" "d")).Scheduled = 10 := by
    decide
  have h3 : (runRows envTwoFail false false rowsTen (newWOFClone "s/" "d")).MaxRetries = 25 := by
    decide
  have hpct : ¬((runRows envTwoFail false false rowsTen (newWOFClone "s/" "d")).MaxRetries <
      (((runRows envTwoFail false false rowsTen (newWOFClone "s/" "d")).retries.length : ℚ) /
          ((runRows envTwoFail false false rowsTen (newWOFClone "s/" "d")).Scheduled : ℚ)) * 100) := by
    rw [h1, h2, h3]
    norm_num
  have hpr : processRetries envTwoFail (runRows envTwoFail false false rowsTen (newWOFClone "s/" "d")) =
      (drainRetries envTwoFail
        (runRows envTwoFail false false rowsTen (newWOFClone "s/" "d")).retries
        (runRows envTwoFail false false rowsTen (newWOFClone "s/" "d")), true) := by
    unfold processRetries
    rw [if_pos (List.length_pos.mpr hne)]
    dsimp only
    rw [if_neg hpct]
  unfold cloneMetaFile
  dsimp only
  rw [hpr]
  decide

/-- **C3, counterexample.** In the claimed scenario — a manifest of ten rows
against an empty destination where exactly the two initial fetches of `p0`
and `p1` fail and both retries succeed — the final `Success` counter is not
10: a successful retry decrements `Error` without incrementing `Success`. -/
theorem C3_counterexample :
    (cloneMetaFile envTwoFail false false rowsTen (newWOFClone "s/" "d")).1.Success ≠ 10 := by
  rw [c3_final_state]
  decide

/-- **C3 (amended).** In that scenario the job completes with `Error = 0`,
`Success = 8` (the eight entries that succeeded in the initial pass; retry
successes only cancel previously-counted errors) and returns success. -/
theorem C3_amended_scenario :
    (cloneMetaFile envTwoFail false false rowsTen (newWOFClone "s/" "d")).1.Error = 0 ∧
    (cloneMetaFile envTwoFail false false rowsTen (newWOFClone "s/" "d")).1.Success = 8 ∧
    (cloneMetaFile envTwoFail false false rowsTen (newWOFClone "s/" "d")).2 = none := by
  rw [c3_final_state]
  exact ⟨rfl, rfl, rfl⟩

/-- **C4 (code bug).** When the GET succeeds with status 200 and a readable
body but the durable local write fails, `Process` still returns `nil` and the
enclosing unit of work counts the entry as a success and does not queue it
for retry; the write failure is only folded into the tallies
(`Error + 1`, `Success - 1`) by the detached goroutine. -/
theorem C4_store_failure_not_unit_error :
    (process envStoreFail "s/p" "d/p" (newWOFClone "s/" "d")).2 = none ∧
    (process envStoreFail "s/p" "d/p" (newWOFClone "s/" "d")).1.Error = 1 ∧
    (process envStoreFail "s/p" "d/p" (newWOFClone "s/" "d")).1.Success = -1 ∧
    (workUnit envStoreFail "p" true (newWOFClone "s/" "d")).retries = [] ∧
    (workUnit envStoreFail "p" true (newWOFClone "s/" "d")).Success = 0 ∧
    (workUnit envStoreFail "p" true (newWOFClone "s/" "d")).Error = 1 := by
  refine ⟨?_, ?_, ?_, ?_, ?_, ?_⟩ <;> decide

/-- **C5.** If the metadata-only HEAD probe fails — a transport error, or a
response whose status is not 200 — `HasHashChanged` reports "changed"
(`true`) and returns the error to its caller. -/
theorem C5_probe_failure_fails_open (env : Env) (lh remote : String) (c : WOFClone)
    (h : ∀ rsp, env.clientDo c.requests.length "HEAD" remote = Except.ok rsp →
      rsp.statusCode ≠ 200) :
    (hasHashChanged env lh remote c).2.1 = true ∧
    ((hasHashChanged env lh remote c).2.2).isSome = true := by
  rcases he : env.clientDo c.requests.length "HEAD" remote with e | rsp
  · constructor <;> simp [hasHashChanged, fetch, he]
  · have hb : (rsp.statusCode != 200) = true := by
      simpa [bne_iff_ne] using h rsp he
    constructor <;> simp [hasHashChanged, fetch, he, hb]

/-- Witness for C5: a dead origin; the probe fails, the comparison reports
changed and carries the error. -/
theorem C5_probe_failure_fails_open_witness :
    (hasHashChanged envDown "h" "u" (newWOFClone "s/" "d")).2.1 = true ∧
    ((hasHashChanged envDown "h" "u" (newWOFClone "s/" "d")).2.2).isSome = true :=
  C5_probe_failure_fails_open envDown "h" "u" (newWOFClone "s/" "d")
    (by intro rsp hr; simp [envDown] at hr)

/-- **C6.** For a row whose local copy does not exist, `CloneMetaFile` always
dispatches a fetch work unit (with `ensure_changes = true`), whatever the
skip-existing and force-update toggles and whatever `file_hash` the manifest
carries. -/
theorem C6_no_local_copy_always_fetch (env : Env) (se fu : Bool) (c : WOFClone)
    (rel : String) (fh : Option String)
    (hex : env.localExists (pathJoin c.Dest rel) = false) :
    rowStep env se fu c { path := some rel, file_hash := fh } =
      workUnit env rel true { c with Scheduled := c.Scheduled + 1 } := by
  unfold rowStep
  dsimp only
  rw [if_neg (by simp [hex])]

/-- Witness for C6 with both toggles set and a manifest fingerprint present. -/
theorem C6_no_local_copy_always_fetch_witness :
    envAllOk.localExists (pathJoin (newWOFClone "s/" "d").Dest "p") = false ∧
    rowStep envAllOk true true (newWOFClone "s/" "d")
        { path := some "p", file_hash := some "h" } =
      workUnit envAllOk "p" true
        { newWOFClone "s/" "d" with Scheduled := (newWOFClone "s/" "d").Scheduled + 1 } :=
  ⟨rfl, C6_no_local_copy_always_fetch envAllOk true true (newWOFClone "s/" "d")
    "p" (some "h") rfl⟩

/-- **C7.** For a row whose local copy exists, whose fingerprint (the
manifest `file_hash`, or the computed local hash when the manifest has none)
equals the remote validator, with both toggles unset, the row is skipped:
`Scheduled`, `Completed` and `Skipped` are each incremented once and the only
HTTP request issued is the HEAD probe — no GET. -/
theorem C7_unchanged_entry_skipped (env : Env) (c : WOFClone) (rel : String)
    (row : Row) (rsp : HttpResp)
    (hpath : row.path = some rel)
    (hex : env.localExists (pathJoin c.Dest rel) = true)
    (hdo : env.clientDo c.requests.length "HEAD" (c.Source ++ rel) = Except.ok rsp)
    (hst : rsp.statusCode = 200)
    (hfp : row.file_hash = some (stripQuotes rsp.etag) ∨
      (row.file_hash = none ∧
        env.localHash (pathJoin c.Dest rel) = Except.ok (stripQuotes rsp.etag))) :
    rowStep env false false c row =
      { c with Scheduled := c.Scheduled + 1, Completed := c.Completed + 1,
               Skipped := c.Skipped + 1,
               requests := c.requests ++ [("HEAD", c.Source ++ rel)] } := by
  have hrhc : rowHashCheck env row.file_hash (pathJoin c.Dest rel) (c.Source ++ rel) c =
      ({ c with requests := c.requests ++ [("HEAD", c.Source ++ rel)] }, (false, none)) := by
    rcases hfp with h1 | ⟨h1, h2⟩
    · unfold rowHashCheck
      rw [h1]
      exact hasHashChanged_unchanged env _ _ c rsp hdo hst rfl
    · unfold rowHashCheck
      rw [h1]
      exact hasChanged_unchanged env _ _ c rsp hdo hst h2
  unfold rowStep
  rw [hpath]
  dsimp only
  rw [if_pos hex]
  rw [if_neg (by simp)]
  rw [if_neg (by simp)]
  rw [hrhc]
  rfl

/-- Witness for C7: an up-to-date mirror with a manifest fingerprint `h`
matching the quoted remote `Etag` `"h"`. -/
theorem C7_unchanged_entry_skipped_witness :
    envUnchanged.localExists (pathJoin (newWOFClone "s/" "d").Dest "p") = true ∧
    rowStep envUnchanged false false (newWOFClone "s/" "d")
        { path := some "p", file_hash := some "h" } =
      { newWOFClone "s/" "d" with
        Scheduled := (newWOFClone "s/" "d").Scheduled + 1,
        Completed := (newWOFClone "s/" "d").Completed + 1,
        Skipped := (newWOFClone "s/" "d").Skipped + 1,
        requests := (newWOFClone "s/" "d").requests ++
          [("HEAD", (newWOFClone "s/" "d").Source ++ "p")] } :=
  ⟨rfl, C7_unchanged_entry_skipped envUnchanged (newWOFClone "s/" "d") "p"
    { path := some "p", file_hash := some "h" }
    { statusCode := 200, status := "200 OK", etag := "\"h\"" }
    rfl rfl rfl rfl (Or.inl (by decide))⟩

/-- **C8.** Whenever the job enters the retry pass (non-empty queue, failure
percentage within the ceiling), the pass drains the queue completely — the
queue ends empty — and each previously-queued path is re-processed exactly
once with `ensure_changes` forced `true`: both `Scheduled` and `Completed`
grow by exactly the number of initially-failed (queued) entries. -/
theorem C8_retry_pass_drains_queue (env : Env) (c : WOFClone)
    (hne : c.retries ≠ [])
    (hpct : ((c.retries.length : ℚ) / (c.Scheduled : ℚ)) * 100 ≤ c.MaxRetries) :
    (processRetries env c).2 = true ∧
    (processRetries env c).1.retries = [] ∧
    (processRetries env c).1.Scheduled = c.Scheduled + c.retries.length ∧
    (processRetries env c).1.Completed = c.Completed + c.retries.length := by
  have hpr : processRetries env c = (drainRetries env c.retries c, true) := by
    unfold processRetries
    rw [if_pos (List.length_pos.mpr hne)]
    dsimp only
    rw [if_neg (not_lt.mpr hpct)]
  obtain ⟨h1, h2, h3⟩ := drainRetries_spec env c.retries c
  rw [hpr]
  exact ⟨rfl, h3 hne, h1, h2⟩

/-- Witness for C8: one queued retry out of ten scheduled entries (10% ≤ 25%);
the retry pass runs and empties the queue. -/
theorem C8_retry_pass_drains_queue_witness :
    cRetryOne.retries ≠ [] ∧
    ((cRetryOne.retries.length : ℚ) / (cRetryOne.Scheduled : ℚ)) * 100 ≤
      cRetryOne.MaxRetries ∧
    (processRetries envAllOk cRetryOne).2 = true ∧
    (processRetries envAllOk cRetryOne).1.retries = [] := by
  have hpct : ((cRetryOne.retries.length : ℚ) / (cRetryOne.Scheduled : ℚ)) * 100 ≤
      cRetryOne.MaxRetries := by
    have h1 : cRetryOne.retries.length = 1 := rfl
    have h2 : cRetryOne.Scheduled = 10 := rfl
    have h3 : cRetryOne.MaxRetries = 25 := rfl
    rw [h1, h2, h3]
    norm_num
  obtain ⟨hq1, hq2, _, _⟩ :=
    C8_retry_pass_drains_queue envAllOk cRetryOne (by decide) hpct
  exact ⟨by decide, hpct, hq1, hq2⟩

/-- **C9.** If `Scheduled` is still zero when the Budget Gate is evaluated
(for any job state actually produced by an initial pass), the retry queue is
necessarily empty, so `ProcessRetries` takes its short-circuit branch: it
returns `true` ("proceed") without touching the state, and the failure ratio
is never computed — there is no division by the zero `Scheduled`. -/
theorem C9_zero_scheduled_short_circuit (env : Env) (se fu : Bool) (rows : List Row)
    (source dest : String)
    (h0 : (runRows env se fu rows (newWOFClone source dest)).Scheduled = 0) :
    (runRows env se fu rows (newWOFClone source dest)).retries = [] ∧
    processRetries env (runRows env se fu rows (newWOFClone source dest)) =
      (runRows env se fu rows (newWOFClone source dest), true) := by
  have hle := runRows_retries_le env se fu rows (newWOFClone source dest)
    (by simp [newWOFClone])
  rw [h0] at hle
  have hlen : (runRows env se fu rows (newWOFClone source dest)).retries.length = 0 := by
    omega
  refine ⟨List.length_eq_zero.mp hlen, ?_⟩
  unfold processRetries
  rw [hlen]
  simp

/-- Witness for C9: the empty manifest schedules nothing and the gate
short-circuits. -/
theorem C9_zero_scheduled_short_circuit_witness :
    (runRows envAllOk false false [] (newWOFClone "s/" "d")).Scheduled = 0 ∧
    processRetries envAllOk (runRows envAllOk false false [] (newWOFClone "s/" "d")) =
      (runRows envAllOk false false [] (newWOFClone "s/" "d"), true) :=
  ⟨rfl, (C9_zero_scheduled_short_circuit envAllOk false false [] "s/" "d" rfl).2⟩

/-- **C10.** For a worker-dispatched path processed with `ensure_changes`
forced `true` whose local copy exists and whose fingerprint matches the
remote validator, `ClonePath` increments `Skipped` and returns `nil`; the
initial-pass unit of work then also increments `Success`, and the retry-pass
unit of work decrements `Error` — the entry is counted both as skipped and on
the success side of the tally. -/
theorem C10_skip_counts_both_sides (env : Env) (rel : String) (c : WOFClone)
    (rsp : HttpResp)
    (hex : env.localExists (pathJoin c.Dest rel) = true)
    (hdo : env.clientDo c.requests.length "HEAD" (c.Source ++ rel) = Except.ok rsp)
    (hst : rsp.statusCode = 200)
    (hh : env.localHash (pathJoin c.Dest rel) = Except.ok (stripQuotes rsp.etag)) :
    clonePath env rel true c =
      ({ c with Skipped := c.Skipped + 1,
                requests := c.requests ++ [("HEAD", c.Source ++ rel)] }, none) ∧
    workUnit env rel true c =
      { c with Skipped := c.Skipped + 1,
               requests := c.requests ++ [("HEAD", c.Source ++ rel)],
               Success := c.Success + 1, Completed := c.Completed + 1 } ∧
    retryUnit env rel c =
      { c with Skipped := c.Skipped + 1,
               requests := c.requests ++ [("HEAD", c.Source ++ rel)],
               Error := c.Error - 1, Completed := c.Completed + 1 } := by
  have hcp := clonePath_unchanged env rel c rsp hex hdo hst hh
  refine ⟨hcp, ?_, ?_⟩
  · unfold workUnit
    rw [hcp]
  · unfold retryUnit
    rw [hcp]

/-- Witness for C10: the up-to-date mirror oracle; `ClonePath` skips, the
initial-pass unit counts a success, the retry unit cancels an error. -/
theorem C10_skip_counts_both_sides_witness :
    envUnchanged.localExists (pathJoin (newWOFClone "s/" "d").Dest "p") = true ∧
    clonePath envUnchanged "p" true (newWOFClone "s/" "d") =
      ({ newWOFClone "s/" "d" with
         Skipped := (newWOFClone "s/" "d").Skipped + 1,
         requests := (newWOFClone "s/" "d").requests ++
           [("HEAD", (newWOFClone "s/" "d").Source ++ "p")] }, none) ∧
    retryUnit envUnchanged "p" (newWOFClone "s/" "d") =
      { newWOFClone "s/" "d" with
        Skipped := (newWOFClone "s/" "d").Skipped + 1,
        requests := (newWOFClone "s/" "d").requests ++
          [("HEAD", (newWOFClone "s/" "d").Source ++ "p")],
        Error := (newWOFClone "s/" "d").Error - 1,
        Completed := (newWOFClone "s/" "d").Completed + 1 } := by
  obtain ⟨h1, _, h3⟩ := C10_skip_counts_both_sides envUnchanged "p"
    (newWOFClone "s/" "d")
    { statusCode := 200, status := "200 OK", etag := "\"h\"" }
    rfl rfl rfl rfl
  exact ⟨rfl, h1, h3⟩
